import Mathlib

/-!
Verification of the 54autoworks proxy server (a Node/Express HTTP proxy in
front of a WooCommerce Store API and an exchange-rate service).

The repository holds two variants of the server:
  * `src/server.js` — the current entry point; its `fetchExchangeRates`
    is hardcoded and performs no external call.
  * `src/unnamed/part_000` — an earlier variant of the same server; its
    `fetchExchangeRates` implements a one-hour cache in front of the
    ExchangeRate-API, and its `POST /api/cart/remove-item` handler contains
    frontend code referencing identifiers that do not exist on the server.

The embedding below models each request handler as a pure function from
(the process-global nonce slot, the client-supplied cart token, the outcome
of the single outbound fetch) to (the new nonce slot, the HTTP response
sent to the client, the headers placed on the outbound request, and
bookkeeping flags).  JavaScript truthiness of a possibly-absent string is
modelled by `Option String` (`none` = absent/falsy).  JSON bodies are
modelled by the two fields the server ever inspects: `message` and
`cartToken`.
-/

/-- Exchange-rate pair as served by the proxy (JS numbers carried verbatim;
no arithmetic is performed on them, so `Rat` is exact). -/
structure Rates where
  USD : Rat
  ZAR : Rat
deriving DecidableEq

/-- The hardcoded fallback pair `{ USD: 1, ZAR: 19.00 }`. -/
def fallbackRates : Rates := { USD := 1, ZAR := 19 }

/-- State of the exchange-rate cache in `src/unnamed/part_000`:
`let cachedExchangeRates = null; let lastFetchTime = 0;`. -/
structure RateCacheState where
  cachedExchangeRates : Option Rates
  lastFetchTime : Nat
deriving DecidableEq

/-- Initial cache state of `src/unnamed/part_000`. -/
def initialRateCacheState : RateCacheState :=
  { cachedExchangeRates := none, lastFetchTime := 0 }

/-- `const CACHE_DURATION = 3600 * 1000;` (one hour in milliseconds). -/
def CACHE_DURATION : Nat := 3600 * 1000

/-- Outcome of the single outbound call to the ExchangeRate-API, as the
`part_000` code distinguishes the cases:
  * `success u z` — `response.ok && data.result === 'success' &&
    data.conversion_rates` holds, with `conversion_rates.USD = u` and
    `conversion_rates.ZAR = z`;
  * `badResponse` — the response arrived but the success check fails;
  * `thrown` — `fetch` or `response.json()` threw. -/
inductive RateFetchOutcome where
  | success (u z : Rat)
  | badResponse
  | thrown
deriving DecidableEq

/-- Result of one call to `fetchExchangeRates`: the returned pair, the
cache state after the call, and whether an external fetch was issued. -/
structure RateFetchResult where
  rates : Rates
  state : RateCacheState
  didExternalFetch : Bool
deriving DecidableEq

/-- The cache-hit test of `part_000`:
`Date.now() - lastFetchTime < CACHE_DURATION && cachedExchangeRates`. -/
def ratesCacheHit (st : RateCacheState) (now : Nat) : Bool :=
  decide (now - st.lastFetchTime < CACHE_DURATION) && st.cachedExchangeRates.isSome

/-- `fetchExchangeRates` of `src/unnamed/part_000` (lines 48–86).
`now` is the value of `Date.now()` at the head of the call; `apiKey` is
`EXCHANGE_RATE_API_KEY` (`none` = missing); `outcome` is the result of the
outbound call, consulted only when one is issued.  The cache-hit branch's
`getD` default is unreachable: the branch is guarded by `isSome`. -/
def fetchExchangeRates (st : RateCacheState) (now : Nat) (apiKey : Option String)
    (outcome : RateFetchOutcome) : RateFetchResult :=
  if ratesCacheHit st now then
    { rates := st.cachedExchangeRates.getD fallbackRates, state := st, didExternalFetch := false }
  else if apiKey.isNone then
    { rates := fallbackRates, state := st, didExternalFetch := false }
  else
    match outcome with
    | .success u z =>
        { rates := { USD := u, ZAR := z },
          state := { cachedExchangeRates := some { USD := u, ZAR := z }, lastFetchTime := now },
          didExternalFetch := true }
    | .badResponse => { rates := fallbackRates, state := st, didExternalFetch := true }
    | .thrown => { rates := fallbackRates, state := st, didExternalFetch := true }

/-- A sequence of calls to `fetchExchangeRates` (each with its `Date.now()`
value and outbound outcome), threading the cache state; returns the final
state and the list of returned pairs. -/
def runRateCalls (st : RateCacheState) (apiKey : Option String) :
    List (Nat × RateFetchOutcome) → RateCacheState × List Rates
  | [] => (st, [])
  | (t, o) :: rest =>
      let r := fetchExchangeRates st t apiKey o
      let (st', out) := runRateCalls r.state apiKey rest
      (st', r.rates :: out)

/-- The failure paths of `fetchExchangeRates` in `part_000`: the cache is
not served, and either the API key is missing, the response fails the
success check, or the fetch threw. -/
def rateFailurePath (st : RateCacheState) (now : Nat) (apiKey : Option String)
    (o : RateFetchOutcome) : Prop :=
  ratesCacheHit st now = false ∧
    (apiKey = none ∨ o = RateFetchOutcome.badResponse ∨ o = RateFetchOutcome.thrown)

/-- State of the exchange-rate slots in `src/server.js`:
`let cachedExchangeRates = { USD: 1, ZAR: 19.00 }; let lastFetchTime = Date.now();`. -/
structure ServerRateState where
  cachedExchangeRates : Rates
  lastFetchTime : Nat
deriving DecidableEq

/-- Startup state of `src/server.js`'s exchange-rate slots (`startTime` is
`Date.now()` at module load). -/
def serverInitialRateState (startTime : Nat) : ServerRateState :=
  { cachedExchangeRates := { USD := 1, ZAR := 19 }, lastFetchTime := startTime }

/-- Result of one call to the `src/server.js` variant. -/
structure ServerRateResult where
  rates : Rates
  state : ServerRateState
  didExternalFetch : Bool
deriving DecidableEq

/-- `fetchExchangeRates` of `src/server.js` (lines 64–67): logs and returns
`cachedExchangeRates` unconditionally.  It never consults the clock, never
issues an external call, and never writes the cache slots. -/
def fetchExchangeRatesHardcoded (st : ServerRateState) : ServerRateResult :=
  { rates := st.cachedExchangeRates, state := st, didExternalFetch := false }

/-- The two JSON body fields the server ever inspects: `data.message`
(error message used in wrapped error bodies) and `data.cartToken` (read by
the `part_000` remove handler).  `none` models an absent/falsy field. -/
structure JsonBody where
  message : Option String
  cartToken : Option String
deriving DecidableEq

/-- Result of `await response.json()`: a parsed body, or a thrown parse
error carrying the exception message. -/
inductive BodyResult where
  | parsed (data : JsonBody)
  | parseError (msg : String)
deriving DecidableEq

/-- An upstream HTTP response as the handlers observe it: status code, the
`woocommerce-session` response header, the `nonce` response header, and the
outcome of parsing the body. -/
structure UpstreamResponse where
  status : Nat
  sessionToken : Option String
  nonce : Option String
  body : BodyResult
deriving DecidableEq

/-- Outcome of the outbound `fetch` itself: a response, or a thrown
transport error carrying the exception message. -/
inductive FetchResult where
  | ok (resp : UpstreamResponse)
  | thrown (msg : String)
deriving DecidableEq

/-- `response.ok`: status in the 200–299 range. -/
def respOk (status : Nat) : Bool := decide (200 ≤ status ∧ status < 300)

/-- The `details` field of an error body sent by the proxy: absent, the
exception's message, or the relayed upstream JSON body. -/
inductive ErrDetails where
  | noDetails
  | exnMessage (s : String)
  | upstreamBody (d : JsonBody)
deriving DecidableEq

/-- The JSON body of a proxy response:
  * `cartAndToken t` — `{ cart: data, cartToken: t }` (init / cart GET);
  * `relay d` — the upstream body relayed verbatim via `res.json(data)`;
  * `errWrap m d` — an error wrapper whose leading text is `m` (the
    `message`/`error` field) with details `d`;
  * `empty` — `res.send()` with no body (204). -/
inductive RespBody where
  | cartAndToken (cartToken : Option String)
  | relay (data : JsonBody)
  | errWrap (message : String) (details : ErrDetails)
  | empty
deriving DecidableEq

/-- The HTTP response the proxy sends to its client: status, the
`Cart-Token` response header (if set), and the body. -/
structure ProxyResponse where
  status : Nat
  cartTokenHeader : Option String
  body : RespBody
deriving DecidableEq

/-- Full observable effect of one handler invocation: the process-global
nonce slot after the call, the response sent, whether the outbound fetch
was issued, the headers placed on the outbound request, and whether
`response.json()` was attempted. -/
structure HandlerOut where
  nonce : Option String
  response : ProxyResponse
  upstreamCalled : Bool
  outHeaders : List (String × String)
  parseAttempted : Bool
deriving DecidableEq

/-- `const USER_AGENT_STRING = '54Autoworks-NodeJS-Proxy/1.0';` -/
def USER_AGENT_STRING : String := "54Autoworks-NodeJS-Proxy/1.0"

/-- Outbound headers of the GET handlers (`/api/init`, `/api/cart`):
Content-Type, User-Agent, and the client's Cart-Token when present. -/
def getHeaders (clientCartToken : Option String) : List (String × String) :=
  [("Content-Type", "application/json"), ("User-Agent", USER_AGENT_STRING)] ++
    (match clientCartToken with
     | some t => [("Cart-Token", t)]
     | none => [])

/-- Outbound headers of the cart-mutating POST handlers: the GET headers
plus the `Nonce` header when the global nonce slot is non-null. -/
def mutHeaders (clientCartToken wooApiNonce : Option String) : List (String × String) :=
  getHeaders clientCartToken ++
    (match wooApiNonce with
     | some n => [("Nonce", n)]
     | none => [])

/-- Nonce slot after `/api/init` observes `resp`:
`if (nonceFromHeader) wooApiNonce = nonceFromHeader;`. -/
def nonceAfterInit (wooApiNonce : Option String) (resp : UpstreamResponse) : Option String :=
  match resp.nonce with
  | some n => some n
  | none => wooApiNonce

/-- `newWooSessionToken || clientCartToken` (the `cartToken` body field of
init / cart GET). -/
def tokenOr (sessionToken clientCartToken : Option String) : Option String :=
  match sessionToken with
  | some t => some t
  | none => clientCartToken

/-- `GET /api/init` of `src/server.js` (lines 75–127).  Forwards the client
token, captures the `nonce` header into the global slot, relays the cart
body with the (possibly refreshed) token, and on any thrown error responds
500 with the exception message in `details`. -/
def apiInit (wooApiNonce clientCartToken : Option String) (upstream : FetchResult) : HandlerOut :=
  let headers := getHeaders clientCartToken
  match upstream with
  | .thrown m =>
      { nonce := wooApiNonce, upstreamCalled := true, outHeaders := headers,
        parseAttempted := false,
        response := { status := 500, cartTokenHeader := none,
                      body := .errWrap "Failed to initialize session." (.exnMessage m) } }
  | .ok resp =>
      let nonce' := nonceAfterInit wooApiNonce resp
      match resp.body with
      | .parseError m =>
          { nonce := nonce', upstreamCalled := true, outHeaders := headers,
            parseAttempted := true,
            response := { status := 500, cartTokenHeader := resp.sessionToken,
                          body := .errWrap "Failed to initialize session." (.exnMessage m) } }
      | .parsed data =>
          if respOk resp.status then
            { nonce := nonce', upstreamCalled := true, outHeaders := headers,
              parseAttempted := true,
              response := { status := 200, cartTokenHeader := resp.sessionToken,
                            body := .cartAndToken (tokenOr resp.sessionToken clientCartToken) } }
          else
            { nonce := nonce', upstreamCalled := true, outHeaders := headers,
              parseAttempted := true,
              response := { status := resp.status, cartTokenHeader := resp.sessionToken,
                            body := .errWrap
                              (data.message.getD "Failed to initialize session from WooCommerce")
                              (.upstreamBody data) } }

/-- `GET /api/cart` of `src/server.js` (lines 344–384).  Identical to
`/api/init` except that it never reads the `nonce` response header (the
global slot is left unchanged) and uses its own error strings. -/
def apiCart (wooApiNonce clientCartToken : Option String) (upstream : FetchResult) : HandlerOut :=
  let headers := getHeaders clientCartToken
  match upstream with
  | .thrown m =>
      { nonce := wooApiNonce, upstreamCalled := true, outHeaders := headers,
        parseAttempted := false,
        response := { status := 500, cartTokenHeader := none,
                      body := .errWrap "Failed to fetch cart." (.exnMessage m) } }
  | .ok resp =>
      match resp.body with
      | .parseError m =>
          { nonce := wooApiNonce, upstreamCalled := true, outHeaders := headers,
            parseAttempted := true,
            response := { status := 500, cartTokenHeader := resp.sessionToken,
                          body := .errWrap "Failed to fetch cart." (.exnMessage m) } }
      | .parsed data =>
          if respOk resp.status then
            { nonce := wooApiNonce, upstreamCalled := true, outHeaders := headers,
              parseAttempted := true,
              response := { status := 200, cartTokenHeader := resp.sessionToken,
                            body := .cartAndToken (tokenOr resp.sessionToken clientCartToken) } }
          else
            { nonce := wooApiNonce, upstreamCalled := true, outHeaders := headers,
              parseAttempted := true,
              response := { status := resp.status, cartTokenHeader := resp.sessionToken,
                            body := .errWrap (data.message.getD "Failed to fetch cart")
                              (.upstreamBody data) } }

/-- `GET /api/products` of `src/server.js` (lines 135–154).  Sends only the
User-Agent header; on upstream non-ok it THROWS
`Error(data.message || 'Failed to fetch products')`, so its own catch turns
every upstream error into a 500 whose `details` is that message. -/
def apiProducts (wooApiNonce : Option String) (upstream : FetchResult) : HandlerOut :=
  let headers := [("User-Agent", USER_AGENT_STRING)]
  match upstream with
  | .thrown m =>
      { nonce := wooApiNonce, upstreamCalled := true, outHeaders := headers,
        parseAttempted := false,
        response := { status := 500, cartTokenHeader := none,
                      body := .errWrap "Failed to fetch products." (.exnMessage m) } }
  | .ok resp =>
      match resp.body with
      | .parseError m =>
          { nonce := wooApiNonce, upstreamCalled := true, outHeaders := headers,
            parseAttempted := true,
            response := { status := 500, cartTokenHeader := none,
                          body := .errWrap "Failed to fetch products." (.exnMessage m) } }
      | .parsed data =>
          if respOk resp.status then
            { nonce := wooApiNonce, upstreamCalled := true, outHeaders := headers,
              parseAttempted := true,
              response := { status := 200, cartTokenHeader := none, body := .relay data } }
          else
            { nonce := wooApiNonce, upstreamCalled := true, outHeaders := headers,
              parseAttempted := true,
              response := { status := 500, cartTokenHeader := none,
                            body := .errWrap "Failed to fetch products."
                              (.exnMessage (data.message.getD "Failed to fetch products")) } }

/-- `wooAuth` of `src/server.js` (lines 53–58): when both consumer key and
secret are configured, the pair is base64-encoded for Basic auth; the pair
itself stands in for the encoded credential.  Computed at startup; never
attached to any outbound request. -/
def wooAuth (consumerKey consumerSecret : Option String) : Option (String × String) :=
  match consumerKey, consumerSecret with
  | some k, some s => some (k, s)
  | _, _ => none

/-- `POST /api/cart/add` of `src/server.js` (lines 157–214).  Sends the
client token and the global nonce on the outbound request; never writes
the nonce slot; relays the upstream status; its catch responds 500 with
`{ error: ..., details: error.message }`. -/
def cartAdd (wooApiNonce clientCartToken : Option String) (upstream : FetchResult) : HandlerOut :=
  let headers := mutHeaders clientCartToken wooApiNonce
  match upstream with
  | .thrown m =>
      { nonce := wooApiNonce, upstreamCalled := true, outHeaders := headers,
        parseAttempted := false,
        response := { status := 500, cartTokenHeader := none,
                      body := .errWrap "Failed to add item to cart." (.exnMessage m) } }
  | .ok resp =>
      match resp.body with
      | .parseError m =>
          { nonce := wooApiNonce, upstreamCalled := true, outHeaders := headers,
            parseAttempted := true,
            response := { status := 500, cartTokenHeader := resp.sessionToken,
                          body := .errWrap "Failed to add item to cart." (.exnMessage m) } }
      | .parsed data =>
          if respOk resp.status then
            { nonce := wooApiNonce, upstreamCalled := true, outHeaders := headers,
              parseAttempted := true,
              response := { status := resp.status, cartTokenHeader := resp.sessionToken,
                            body := .relay data } }
          else
            { nonce := wooApiNonce, upstreamCalled := true, outHeaders := headers,
              parseAttempted := true,
              response := { status := resp.status, cartTokenHeader := resp.sessionToken,
                            body := .errWrap (data.message.getD "Failed to add to cart")
                              (.upstreamBody data) } }

/-- `POST /api/cart/update-item` of `src/server.js` (lines 217–270).  Same
relay shape as add, but its catch (line 268) responds 500 with the fixed
body `{ error: 'Failed to update item quantity in cart.' }` — the thrown
exception's message is NOT included. -/
def cartUpdate (wooApiNonce clientCartToken : Option String) (upstream : FetchResult) : HandlerOut :=
  let headers := mutHeaders clientCartToken wooApiNonce
  match upstream with
  | .thrown _ =>
      { nonce := wooApiNonce, upstreamCalled := true, outHeaders := headers,
        parseAttempted := false,
        response := { status := 500, cartTokenHeader := none,
                      body := .errWrap "Failed to update item quantity in cart." .noDetails } }
  | .ok resp =>
      match resp.body with
      | .parseError _ =>
          { nonce := wooApiNonce, upstreamCalled := true, outHeaders := headers,
            parseAttempted := true,
            response := { status := 500, cartTokenHeader := resp.sessionToken,
                          body := .errWrap "Failed to update item quantity in cart." .noDetails } }
      | .parsed data =>
          if respOk resp.status then
            { nonce := wooApiNonce, upstreamCalled := true, outHeaders := headers,
              parseAttempted := true,
              response := { status := resp.status, cartTokenHeader := resp.sessionToken,
                            body := .relay data } }
          else
            { nonce := wooApiNonce, upstreamCalled := true, outHeaders := headers,
              parseAttempted := true,
              response := { status := resp.status, cartTokenHeader := resp.sessionToken,
                            body := .errWrap (data.message.getD "Failed to update item quantity")
                              (.upstreamBody data) } }

/-- `POST /api/cart/remove-item` of `src/server.js` (lines 273–340).
On upstream 204 it returns `res.status(204).send()` before any body parse.
Otherwise it parses the body and relays it with the upstream status
(whether or not the status is a success); a parse failure on an error
status throws `Store API remove failed with status N` into the catch
(500, message in `details`); a parse failure on a success status leaves
`data = \x7b\x7d` and relays the upstream status with that empty object. -/
def cartRemove (wooApiNonce clientCartToken : Option String) (upstream : FetchResult) : HandlerOut :=
  let headers := mutHeaders clientCartToken wooApiNonce
  match upstream with
  | .thrown m =>
      { nonce := wooApiNonce, upstreamCalled := true, outHeaders := headers,
        parseAttempted := false,
        response := { status := 500, cartTokenHeader := none,
                      body := .errWrap "Failed to remove item." (.exnMessage m) } }
  | .ok resp =>
      if resp.status = 204 then
        { nonce := wooApiNonce, upstreamCalled := true, outHeaders := headers,
          parseAttempted := false,
          response := { status := 204, cartTokenHeader := resp.sessionToken, body := .empty } }
      else
        match resp.body with
        | .parsed data =>
            { nonce := wooApiNonce, upstreamCalled := true, outHeaders := headers,
              parseAttempted := true,
              response := { status := resp.status, cartTokenHeader := resp.sessionToken,
                            body := .relay data } }
        | .parseError _ =>
            if respOk resp.status then
              { nonce := wooApiNonce, upstreamCalled := true, outHeaders := headers,
                parseAttempted := true,
                response := { status := resp.status, cartTokenHeader := resp.sessionToken,
                              body := .relay { message := none, cartToken := none } } }
            else
              { nonce := wooApiNonce, upstreamCalled := true, outHeaders := headers,
                parseAttempted := true,
                response := { status := 500, cartTokenHeader := resp.sessionToken,
                              body := .errWrap "Failed to remove item."
                                (.exnMessage ("Store API remove failed with status "
                                  ++ toString resp.status)) } }

/-- Outcome of the `part_000` remove-item handler: either an HTTP response
was sent, or evaluation reached a reference to an identifier that is not
defined on the server, so a ReferenceError propagated and no response was
ever sent. -/
inductive RemoveOutcomeP0 where
  | responded (r : ProxyResponse)
  | threwUndefined (name : String)
deriving DecidableEq

/-- Observable effect of one invocation of the `part_000` remove handler. -/
structure RemoveP0Out where
  nonce : Option String
  outcome : RemoveOutcomeP0
  parseAttempted : Bool
  outHeaders : List (String × String)
deriving DecidableEq

/-- Identifiers referenced by the `part_000` remove handler (lines 366–383)
that are not defined anywhere on the server. -/
def undefinedRemoveIdentifiers : List String :=
  ["wooCartToken", "localStorage", "fetchAndDisplayCart", "showCartError", "itemKey"]

/-- `POST /api/cart/remove-item` of `src/unnamed/part_000` (lines 302–384).
The 204 branch responds normally.  On every other path execution reaches a
reference to an undefined identifier; the field records the FIRST such
reference:
  * fetch thrown, or body-parse failure on an error status (which throws):
    the catch block's `showCartError(...)` is the first undefined reference;
  * parsed body with a truthy `data.cartToken`: `data.cartToken !== wooCartToken`
    evaluates `wooCartToken` first;
  * parsed body with falsy `data.cartToken` (also parse failure on a
    success status, which leaves `data = \x7b\x7d`): the `&&` short-circuits
    past `wooCartToken`, and `await fetchAndDisplayCart()` is reached.
In every such case the catch block itself then throws (its first statement
after logging references `showCartError`), so no response is sent. -/
def cartRemoveP0 (wooApiNonce clientCartToken : Option String) (upstream : FetchResult) : RemoveP0Out :=
  let headers := mutHeaders clientCartToken wooApiNonce
  match upstream with
  | .thrown _ =>
      { nonce := wooApiNonce, outcome := .threwUndefined "showCartError",
        parseAttempted := false, outHeaders := headers }
  | .ok resp =>
      if resp.status = 204 then
        { nonce := wooApiNonce,
          outcome := .responded { status := 204, cartTokenHeader := resp.sessionToken, body := .empty },
          parseAttempted := false, outHeaders := headers }
      else
        match resp.body with
        | .parseError _ =>
            if respOk resp.status then
              { nonce := wooApiNonce, outcome := .threwUndefined "fetchAndDisplayCart",
                parseAttempted := true, outHeaders := headers }
            else
              { nonce := wooApiNonce, outcome := .threwUndefined "showCartError",
                parseAttempted := true, outHeaders := headers }
        | .parsed data =>
            match data.cartToken with
            | some _ =>
                { nonce := wooApiNonce, outcome := .threwUndefined "wooCartToken",
                  parseAttempted := true, outHeaders := headers }
            | none =>
                { nonce := wooApiNonce, outcome := .threwUndefined "fetchAndDisplayCart",
                  parseAttempted := true, outHeaders := headers }

/-! ## Helper lemmas -/

/-- A call with no API key and an empty cache returns the fallback pair and
leaves the cache state untouched. -/
theorem fetchExchangeRates_no_key_no_cache (st : RateCacheState) (now : Nat)
    (o : RateFetchOutcome) (hc : st.cachedExchangeRates = none) :
    fetchExchangeRates st now none o =
      { rates := fallbackRates, state := st, didExternalFetch := false } := by
  simp [fetchExchangeRates, ratesCacheHit, hc]

/-- With no API key and an empty cache, every call in a sequence returns
the fallback pair and the final state equals the initial one. -/
theorem runRateCalls_no_key (st : RateCacheState) (calls : List (Nat × RateFetchOutcome))
    (hc : st.cachedExchangeRates = none) :
    runRateCalls st none calls = (st, List.replicate calls.length fallbackRates) := by
  induction calls with
  | nil => rfl
  | cons c rest ih =>
      obtain ⟨t, o⟩ := c
      simp [runRateCalls, fetchExchangeRates_no_key_no_cache st t o hc, ih,
        List.replicate_succ]

/-- The nonce slot after `/api/init` is `nonceAfterInit` of the response
(upstream nonce header if present, else unchanged). -/
theorem apiInit_nonce (ns ct : Option String) (resp : UpstreamResponse) :
    (apiInit ns ct (FetchResult.ok resp)).nonce = nonceAfterInit ns resp := by
  cases hb : resp.body with
  | parseError m => simp [apiInit, hb]
  | parsed data =>
      by_cases hok : respOk resp.status = true <;> simp [apiInit, hb, hok]

/-- `GET /api/cart` never writes the nonce slot. -/
theorem apiCart_nonce (ns ct : Option String) (up : FetchResult) :
    (apiCart ns ct up).nonce = ns := by
  cases up with
  | thrown m => rfl
  | ok resp =>
      cases hb : resp.body with
      | parseError m => simp [apiCart, hb]
      | parsed data =>
          by_cases hok : respOk resp.status = true <;> simp [apiCart, hb, hok]

/-- `POST /api/cart/add` never writes the nonce slot. -/
theorem cartAdd_nonce (ns ct : Option String) (up : FetchResult) :
    (cartAdd ns ct up).nonce = ns := by
  cases up with
  | thrown m => rfl
  | ok resp =>
      cases hb : resp.body with
      | parseError m => simp [cartAdd, hb]
      | parsed data =>
          by_cases hok : respOk resp.status = true <;> simp [cartAdd, hb, hok]

/-- `POST /api/cart/update-item` never writes the nonce slot. -/
theorem cartUpdate_nonce (ns ct : Option String) (up : FetchResult) :
    (cartUpdate ns ct up).nonce = ns := by
  cases up with
  | thrown m => rfl
  | ok resp =>
      cases hb : resp.body with
      | parseError m => simp [cartUpdate, hb]
      | parsed data =>
          by_cases hok : respOk resp.status = true <;> simp [cartUpdate, hb, hok]

/-- `POST /api/cart/remove-item` never writes the nonce slot. -/
theorem cartRemove_nonce (ns ct : Option String) (up : FetchResult) :
    (cartRemove ns ct up).nonce = ns := by
  cases up with
  | thrown m => rfl
  | ok resp =>
      by_cases h204 : resp.status = 204
      · simp [cartRemove, h204]
      · cases hb : resp.body with
        | parseError m =>
            by_cases hok : respOk resp.status = true <;> simp [cartRemove, hb, h204, hok]
        | parsed data => simp [cartRemove, hb, h204]

/-- `/api/init` always sends exactly the GET headers on the outbound call. -/
theorem apiInit_outHeaders (ns ct : Option String) (up : FetchResult) :
    (apiInit ns ct up).outHeaders = getHeaders ct := by
  cases up with
  | thrown m => rfl
  | ok resp =>
      cases hb : resp.body with
      | parseError m => simp [apiInit, hb]
      | parsed data =>
          by_cases hok : respOk resp.status = true <;> simp [apiInit, hb, hok]

/-- `GET /api/cart` always sends exactly the GET headers. -/
theorem apiCart_outHeaders (ns ct : Option String) (up : FetchResult) :
    (apiCart ns ct up).outHeaders = getHeaders ct := by
  cases up with
  | thrown m => rfl
  | ok resp =>
      cases hb : resp.body with
      | parseError m => simp [apiCart, hb]
      | parsed data =>
          by_cases hok : respOk resp.status = true <;> simp [apiCart, hb, hok]

/-- `GET /api/products` always sends exactly the User-Agent header. -/
theorem apiProducts_outHeaders (ns : Option String) (up : FetchResult) :
    (apiProducts ns up).outHeaders = [("User-Agent", USER_AGENT_STRING)] := by
  cases up with
  | thrown m => rfl
  | ok resp =>
      cases hb : resp.body with
      | parseError m => simp [apiProducts, hb]
      | parsed data =>
          by_cases hok : respOk resp.status = true <;> simp [apiProducts, hb, hok]

/-- `POST /api/cart/add` always sends exactly the mutating-call headers. -/
theorem cartAdd_outHeaders (ns ct : Option String) (up : FetchResult) :
    (cartAdd ns ct up).outHeaders = mutHeaders ct ns := by
  cases up with
  | thrown m => rfl
  | ok resp =>
      cases hb : resp.body with
      | parseError m => simp [cartAdd, hb]
      | parsed data =>
          by_cases hok : respOk resp.status = true <;> simp [cartAdd, hb, hok]

/-- `POST /api/cart/update-item` always sends exactly the mutating-call headers. -/
theorem cartUpdate_outHeaders (ns ct : Option String) (up : FetchResult) :
    (cartUpdate ns ct up).outHeaders = mutHeaders ct ns := by
  cases up with
  | thrown m => rfl
  | ok resp =>
      cases hb : resp.body with
      | parseError m => simp [cartUpdate, hb]
      | parsed data =>
          by_cases hok : respOk resp.status = true <;> simp [cartUpdate, hb, hok]

/-- `POST /api/cart/remove-item` always sends exactly the mutating-call headers. -/
theorem cartRemove_outHeaders (ns ct : Option String) (up : FetchResult) :
    (cartRemove ns ct up).outHeaders = mutHeaders ct ns := by
  cases up with
  | thrown m => rfl
  | ok resp =>
      by_cases h204 : resp.status = 204
      · simp [cartRemove, h204]
      · cases hb : resp.body with
        | parseError m =>
            by_cases hok : respOk resp.status = true <;> simp [cartRemove, hb, h204, hok]
        | parsed data => simp [cartRemove, hb, h204]

/-- The `part_000` remove handler always sends exactly the mutating-call headers. -/
theorem cartRemoveP0_outHeaders (ns ct : Option String) (up : FetchResult) :
    (cartRemoveP0 ns ct up).outHeaders = mutHeaders ct ns := by
  cases up with
  | thrown m => rfl
  | ok resp =>
      by_cases h204 : resp.status = 204
      · simp [cartRemoveP0, h204]
      · cases hb : resp.body with
        | parseError m =>
            by_cases hok : respOk resp.status = true <;> simp [cartRemoveP0, hb, h204, hok]
        | parsed data =>
            cases hct : data.cartToken <;> simp [cartRemoveP0, hb, h204, hct]

/-- The GET headers carry no authorization entry. -/
theorem getHeaders_no_auth (ct : Option String) :
    (getHeaders ct).lookup "Authorization" = none := by
  cases ct <;> rfl

/-- The mutating-call headers carry no authorization entry. -/
theorem mutHeaders_no_auth (ct ns : Option String) :
    (mutHeaders ct ns).lookup "Authorization" = none := by
  cases ct <;> cases ns <;> rfl

/-! ## Claim theorems -/

/-- Claim C1, counterexample.  In `src/server.js` the claim fails: after a
first call on the startup state, a second call — however much later —
issues no external fetch, leaves the cache timestamp at its initial value
instead of updating it, and returns the same hardcoded pair. -/
theorem hardcoded_rates_second_call_never_fetches :
    (fetchExchangeRatesHardcoded
        (fetchExchangeRatesHardcoded (serverInitialRateState 0)).state).didExternalFetch
      = false ∧
    (fetchExchangeRatesHardcoded
        (fetchExchangeRatesHardcoded (serverInitialRateState 0)).state).state.lastFetchTime
      = 0 ∧
    (fetchExchangeRatesHardcoded
        (fetchExchangeRatesHardcoded (serverInitialRateState 0)).state).rates
      = fallbackRates :=
  ⟨rfl, rfl, rfl⟩

/-- Claim C1 (amended): in the `src/unnamed/part_000` variant, a second
call within the cache window after a successful fetch returns the cached
pair with no external fetch and no state change; a second call at or past
the window (with the key configured and a successful upstream fetch)
issues an external fetch, caches the fresh pair with timestamp `t1`, and
returns it.  The `src/server.js` variant never issues an external fetch
and never changes its state. -/
theorem fetchExchangeRates_cache_window (t0 t1 : Nat) (k : String) (r : Rates)
    (u z : Rat) (o : RateFetchOutcome) :
    (t1 - t0 < CACHE_DURATION →
      fetchExchangeRates { cachedExchangeRates := some r, lastFetchTime := t0 } t1 (some k) o =
        { rates := r, state := { cachedExchangeRates := some r, lastFetchTime := t0 },
          didExternalFetch := false }) ∧
    (CACHE_DURATION ≤ t1 - t0 →
      fetchExchangeRates { cachedExchangeRates := some r, lastFetchTime := t0 } t1 (some k)
          (RateFetchOutcome.success u z) =
        { rates := { USD := u, ZAR := z },
          state := { cachedExchangeRates := some { USD := u, ZAR := z }, lastFetchTime := t1 },
          didExternalFetch := true }) ∧
    (∀ st : ServerRateState,
      (fetchExchangeRatesHardcoded st).didExternalFetch = false ∧
      (fetchExchangeRatesHardcoded st).state = st) := by
  refine ⟨fun h => ?_, fun h => ?_, fun st => ⟨rfl, rfl⟩⟩
  · simp [fetchExchangeRates, ratesCacheHit, h]
  · have hnot : ¬ (t1 - t0 < CACHE_DURATION) := not_lt.mpr h
    simp [fetchExchangeRates, ratesCacheHit, hnot]

/-- Claim C1 witness: concrete cache hit at 1 second and cache miss at
exactly one hour, instantiating both implications. -/
theorem fetchExchangeRates_cache_window_witness :
    fetchExchangeRates { cachedExchangeRates := some fallbackRates, lastFetchTime := 0 } 1000
        (some "key") RateFetchOutcome.badResponse =
      { rates := fallbackRates,
        state := { cachedExchangeRates := some fallbackRates, lastFetchTime := 0 },
        didExternalFetch := false } ∧
    fetchExchangeRates { cachedExchangeRates := some fallbackRates, lastFetchTime := 0 } 3600000
        (some "key") (RateFetchOutcome.success 1 18) =
      { rates := { USD := 1, ZAR := 18 },
        state := { cachedExchangeRates := some { USD := 1, ZAR := 18 }, lastFetchTime := 3600000 },
        didExternalFetch := true } :=
  ⟨(fetchExchangeRates_cache_window 0 1000 "key" fallbackRates 1 18
      RateFetchOutcome.badResponse).1 (by decide),
   ((fetchExchangeRates_cache_window 0 3600000 "key" fallbackRates 1 18
      RateFetchOutcome.badResponse).2.1 (by decide))⟩

/-- Claim C6: with the rate-API key missing and no fetched rates cached,
a call returns exactly the fallback pair and leaves the cache state
unchanged; hence under a permanently missing key every call in any
sequence returns the fallback pair and the cache never changes. -/
theorem missing_key_always_fallback (st : RateCacheState) (now : Nat)
    (o : RateFetchOutcome) (calls : List (Nat × RateFetchOutcome))
    (hc : st.cachedExchangeRates = none) :
    fetchExchangeRates st now none o =
      { rates := fallbackRates, state := st, didExternalFetch := false } ∧
    (runRateCalls st none calls).2 = List.replicate calls.length fallbackRates ∧
    (runRateCalls st none calls).1 = st := by
  refine ⟨fetchExchangeRates_no_key_no_cache st now o hc, ?_, ?_⟩
  · rw [runRateCalls_no_key st calls hc]
  · rw [runRateCalls_no_key st calls hc]

/-- Claim C6 witness: the startup state with a missing key, one direct
call and a two-call sequence, all returning the fallback pair. -/
theorem missing_key_always_fallback_witness :
    fetchExchangeRates initialRateCacheState 5 none RateFetchOutcome.thrown =
      { rates := fallbackRates, state := initialRateCacheState, didExternalFetch := false } ∧
    (runRateCalls initialRateCacheState none
        [(0, RateFetchOutcome.thrown), (7200000, RateFetchOutcome.badResponse)]).2 =
      List.replicate 2 fallbackRates ∧
    (runRateCalls initialRateCacheState none
        [(0, RateFetchOutcome.thrown), (7200000, RateFetchOutcome.badResponse)]).1 =
      initialRateCacheState :=
  missing_key_always_fallback initialRateCacheState 5 RateFetchOutcome.thrown
    [(0, RateFetchOutcome.thrown), (7200000, RateFetchOutcome.badResponse)] rfl

/-- Claim C7: every failure path of `fetchExchangeRates` (cache not served,
and the key is missing, the response fails the success check, or the fetch
threw) leaves the cached pair and the cache timestamp unchanged. -/
theorem failure_path_leaves_cache (st : RateCacheState) (now : Nat)
    (apiKey : Option String) (o : RateFetchOutcome)
    (h : rateFailurePath st now apiKey o) :
    (fetchExchangeRates st now apiKey o).state = st := by
  obtain ⟨hmiss, hfail⟩ := h
  rcases apiKey with _ | k
  · simp [fetchExchangeRates, hmiss]
  · rcases hfail with hk | ho | ho
    · exact absurd hk (by simp)
    · simp [fetchExchangeRates, hmiss, ho]
    · simp [fetchExchangeRates, hmiss, ho]

/-- Claim C7 witness: a thrown fetch on a stale cache with the key present
leaves the concrete cache state unchanged. -/
theorem failure_path_leaves_cache_witness :
    (fetchExchangeRates { cachedExchangeRates := some fallbackRates, lastFetchTime := 0 }
        4000000 (some "key") RateFetchOutcome.thrown).state =
      { cachedExchangeRates := some fallbackRates, lastFetchTime := 0 } :=
  failure_path_leaves_cache
    { cachedExchangeRates := some fallbackRates, lastFetchTime := 0 }
    4000000 (some "key") RateFetchOutcome.thrown (by constructor <;> decide)

/-- Claim C2, counterexample.  `GET /api/cart` issues the upstream call and
the upstream response carries the nonce header `"nonce-123"`, yet the
process-global nonce slot is still empty when the handler responds (the
handler never reads the nonce header), contradicting the claim that every
cart-API handler stores an observed nonce. -/
theorem apiCart_ignores_nonce_header :
    (apiCart none none (FetchResult.ok
        { status := 200, sessionToken := none, nonce := some "nonce-123",
          body := BodyResult.parsed { message := none, cartToken := none } })).nonce = none ∧
    (apiCart none none (FetchResult.ok
        { status := 200, sessionToken := none, nonce := some "nonce-123",
          body := BodyResult.parsed { message := none, cartToken := none } })).upstreamCalled
      = true := by
  constructor <;> rfl

/-- Claim C2 (amended): only `GET /api/init` stores an upstream nonce
header into the process-global slot; `GET /api/cart` and the three
cart-mutating POST handlers leave the slot unchanged on every input. -/
theorem nonce_slot_written_only_by_init (ns ct : Option String)
    (resp : UpstreamResponse) (n : String) :
    (resp.nonce = some n → (apiInit ns ct (FetchResult.ok resp)).nonce = some n) ∧
    (apiCart ns ct (FetchResult.ok resp)).nonce = ns ∧
    (cartAdd ns ct (FetchResult.ok resp)).nonce = ns ∧
    (cartUpdate ns ct (FetchResult.ok resp)).nonce = ns ∧
    (cartRemove ns ct (FetchResult.ok resp)).nonce = ns := by
  refine ⟨fun hn => ?_, apiCart_nonce ns ct _, cartAdd_nonce ns ct _,
    cartUpdate_nonce ns ct _, cartRemove_nonce ns ct _⟩
  rw [apiInit_nonce]
  simp [nonceAfterInit, hn]

/-- Claim C2 witness: a concrete response carrying nonce `"n1"`; init
stores it, the other four handlers leave the slot at `none`. -/
theorem nonce_slot_written_only_by_init_witness :
    (apiInit none none (FetchResult.ok
        (UpstreamResponse.mk 200 none (some "n1")
          (BodyResult.parsed { message := none, cartToken := none })))).nonce = some "n1" ∧
    (apiCart none none (FetchResult.ok
        (UpstreamResponse.mk 200 none (some "n1")
          (BodyResult.parsed { message := none, cartToken := none })))).nonce = none ∧
    (cartAdd none none (FetchResult.ok
        (UpstreamResponse.mk 200 none (some "n1")
          (BodyResult.parsed { message := none, cartToken := none })))).nonce = none ∧
    (cartUpdate none none (FetchResult.ok
        (UpstreamResponse.mk 200 none (some "n1")
          (BodyResult.parsed { message := none, cartToken := none })))).nonce = none ∧
    (cartRemove none none (FetchResult.ok
        (UpstreamResponse.mk 200 none (some "n1")
          (BodyResult.parsed { message := none, cartToken := none })))).nonce = none :=
  let h := nonce_slot_written_only_by_init none none
    (UpstreamResponse.mk 200 none (some "n1")
      (BodyResult.parsed { message := none, cartToken := none })) "n1"
  ⟨h.1 rfl, h.2.1, h.2.2.1, h.2.2.2.1, h.2.2.2.2⟩

/-- Claim C3, counterexample.  The upstream responds 404 with message
`"Not found"` on `GET /api/products`, but the proxy's response status is
500, not the upstream 404: the products handler throws on upstream non-ok
and its catch always answers 500. -/
theorem apiProducts_404_becomes_500 :
    (apiProducts none
      (FetchResult.ok
        (UpstreamResponse.mk 404 none none
          (BodyResult.parsed (JsonBody.mk (some "Not found") none))))).response.status = 500 ∧
    ¬ (apiProducts none
      (FetchResult.ok
        (UpstreamResponse.mk 404 none none
          (BodyResult.parsed (JsonBody.mk (some "Not found") none))))).response.status = 404 := by
  constructor
  · rfl
  · decide

/-- Claim C3 (amended): on an upstream non-success status with a parsed
body carrying message `m`, the init/cart/add/update handlers relay the
upstream status with `m` in a wrapped error body, and remove (off the 204
path) relays the status with the upstream body verbatim; `GET
/api/products` instead responds 500, with `m` in the error body's
details. -/
theorem upstream_error_relay (ns ct : Option String) (resp : UpstreamResponse)
    (data : JsonBody) (m : String)
    (hb : resp.body = BodyResult.parsed data) (hm : data.message = some m)
    (hnotok : respOk resp.status = false) :
    ((apiInit ns ct (FetchResult.ok resp)).response.status = resp.status ∧
      (apiInit ns ct (FetchResult.ok resp)).response.body =
        RespBody.errWrap m (ErrDetails.upstreamBody data)) ∧
    ((apiCart ns ct (FetchResult.ok resp)).response.status = resp.status ∧
      (apiCart ns ct (FetchResult.ok resp)).response.body =
        RespBody.errWrap m (ErrDetails.upstreamBody data)) ∧
    ((cartAdd ns ct (FetchResult.ok resp)).response.status = resp.status ∧
      (cartAdd ns ct (FetchResult.ok resp)).response.body =
        RespBody.errWrap m (ErrDetails.upstreamBody data)) ∧
    ((cartUpdate ns ct (FetchResult.ok resp)).response.status = resp.status ∧
      (cartUpdate ns ct (FetchResult.ok resp)).response.body =
        RespBody.errWrap m (ErrDetails.upstreamBody data)) ∧
    (resp.status ≠ 204 →
      (cartRemove ns ct (FetchResult.ok resp)).response.status = resp.status ∧
      (cartRemove ns ct (FetchResult.ok resp)).response.body = RespBody.relay data) ∧
    ((apiProducts ns (FetchResult.ok resp)).response.status = 500 ∧
      (apiProducts ns (FetchResult.ok resp)).response.body =
        RespBody.errWrap "Failed to fetch products." (ErrDetails.exnMessage m)) := by
  have hrem : resp.status ≠ 204 →
      (cartRemove ns ct (FetchResult.ok resp)).response.status = resp.status ∧
      (cartRemove ns ct (FetchResult.ok resp)).response.body = RespBody.relay data := by
    intro h204
    constructor <;> simp [cartRemove, hb, h204]
  refine ⟨⟨?_, ?_⟩, ⟨?_, ?_⟩, ⟨?_, ?_⟩, ⟨?_, ?_⟩, hrem, ⟨?_, ?_⟩⟩ <;>
    simp [apiInit, apiCart, cartAdd, cartUpdate, apiProducts, hb, hm, hnotok]

/-- Claim C3 witness: concrete upstream 404 with message `"boom"`:
init relays 404 with the message, remove relays 404 with the body,
products answers 500 with the message in details. -/
theorem upstream_error_relay_witness :
    ((apiInit none none
        (FetchResult.ok (UpstreamResponse.mk 404 none none
          (BodyResult.parsed (JsonBody.mk (some "boom") none))))).response.status = 404 ∧
      (apiInit none none
        (FetchResult.ok (UpstreamResponse.mk 404 none none
          (BodyResult.parsed (JsonBody.mk (some "boom") none))))).response.body =
        RespBody.errWrap "boom" (ErrDetails.upstreamBody (JsonBody.mk (some "boom") none))) ∧
    ((cartRemove none none
        (FetchResult.ok (UpstreamResponse.mk 404 none none
          (BodyResult.parsed (JsonBody.mk (some "boom") none))))).response.status = 404 ∧
      (cartRemove none none
        (FetchResult.ok (UpstreamResponse.mk 404 none none
          (BodyResult.parsed (JsonBody.mk (some "boom") none))))).response.body =
        RespBody.relay (JsonBody.mk (some "boom") none)) ∧
    ((apiProducts none
        (FetchResult.ok (UpstreamResponse.mk 404 none none
          (BodyResult.parsed (JsonBody.mk (some "boom") none))))).response.status = 500 ∧
      (apiProducts none
        (FetchResult.ok (UpstreamResponse.mk 404 none none
          (BodyResult.parsed (JsonBody.mk (some "boom") none))))).response.body =
        RespBody.errWrap "Failed to fetch products." (ErrDetails.exnMessage "boom")) :=
  let h := upstream_error_relay none none
    (UpstreamResponse.mk 404 none none
      (BodyResult.parsed (JsonBody.mk (some "boom") none)))
    (JsonBody.mk (some "boom") none) "boom" rfl rfl (by decide)
  ⟨h.1, h.2.2.2.2.1 (by decide), h.2.2.2.2.2⟩

/-- Claim C4, counterexample.  The key pair is configured (so `wooAuth`
holds the encoded credential), yet the outbound request of a concrete
`/api/init` call carries no authorization header at all. -/
theorem apiInit_outbound_lacks_auth_header :
    wooAuth (some "ck_123") (some "cs_456") = some ("ck_123", "cs_456") ∧
    ((apiInit none (some "tok-1")
      (FetchResult.ok (UpstreamResponse.mk 200 none none
        (BodyResult.parsed (JsonBody.mk none none))))).outHeaders).lookup "Authorization"
      = none := by
  constructor
  · rfl
  · rfl

/-- Claim C4 (amended): `wooAuth` is computed from the configured key pair
at startup but never used — no outbound request of any handler, on any
input, carries an authorization header. -/
theorem no_outbound_auth_header (ns ct : Option String) (up : FetchResult) :
    ((apiInit ns ct up).outHeaders).lookup "Authorization" = none ∧
    ((apiCart ns ct up).outHeaders).lookup "Authorization" = none ∧
    ((apiProducts ns up).outHeaders).lookup "Authorization" = none ∧
    ((cartAdd ns ct up).outHeaders).lookup "Authorization" = none ∧
    ((cartUpdate ns ct up).outHeaders).lookup "Authorization" = none ∧
    ((cartRemove ns ct up).outHeaders).lookup "Authorization" = none ∧
    ((cartRemoveP0 ns ct up).outHeaders).lookup "Authorization" = none := by
  refine ⟨?_, ?_, ?_, ?_, ?_, ?_, ?_⟩
  · rw [apiInit_outHeaders]; exact getHeaders_no_auth ct
  · rw [apiCart_outHeaders]; exact getHeaders_no_auth ct
  · rw [apiProducts_outHeaders]; rfl
  · rw [cartAdd_outHeaders]; exact mutHeaders_no_auth ct ns
  · rw [cartUpdate_outHeaders]; exact mutHeaders_no_auth ct ns
  · rw [cartRemove_outHeaders]; exact mutHeaders_no_auth ct ns
  · rw [cartRemoveP0_outHeaders]; exact mutHeaders_no_auth ct ns

/-- Claim C5, counterexample.  A transport error `"socket hang up"` on
`POST /api/cart/update-item` yields a 500 whose body is the fixed error
wrapper with no details: the exception's message is not included. -/
theorem cartUpdate_500_omits_exception_message :
    (cartUpdate none none (FetchResult.thrown "socket hang up")).response =
      ProxyResponse.mk 500 none
        (RespBody.errWrap "Failed to update item quantity in cart." ErrDetails.noDetails) ∧
    ¬ (cartUpdate none none (FetchResult.thrown "socket hang up")).response.body =
        RespBody.errWrap "Failed to update item quantity in cart."
          (ErrDetails.exnMessage "socket hang up") := by
  constructor
  · rfl
  · decide

/-- Claim C5 (amended): on a thrown transport error every handler responds
500; init, cart, products, add and remove include the exception's message
in the body's details, while update-item responds with a fixed body that
omits it.  On a body-parse exception, init, cart, products and add respond
500 with the parse exception's message, and update-item responds 500 with
its fixed message-omitting body; remove-item responds 500 only when the
upstream status is a non-success, with a synthesized message naming that
status, while on a success (non-204) status it swallows the parse failure
and relays the upstream status with an empty object. -/
theorem thrown_error_responses (ns ct stok non : Option String) (m : String) (s : Nat) :
    ((apiInit ns ct (FetchResult.thrown m)).response.status = 500 ∧
      (apiInit ns ct (FetchResult.thrown m)).response.body =
        RespBody.errWrap "Failed to initialize session." (ErrDetails.exnMessage m)) ∧
    ((apiCart ns ct (FetchResult.thrown m)).response.status = 500 ∧
      (apiCart ns ct (FetchResult.thrown m)).response.body =
        RespBody.errWrap "Failed to fetch cart." (ErrDetails.exnMessage m)) ∧
    ((apiProducts ns (FetchResult.thrown m)).response.status = 500 ∧
      (apiProducts ns (FetchResult.thrown m)).response.body =
        RespBody.errWrap "Failed to fetch products." (ErrDetails.exnMessage m)) ∧
    ((cartAdd ns ct (FetchResult.thrown m)).response.status = 500 ∧
      (cartAdd ns ct (FetchResult.thrown m)).response.body =
        RespBody.errWrap "Failed to add item to cart." (ErrDetails.exnMessage m)) ∧
    ((cartRemove ns ct (FetchResult.thrown m)).response.status = 500 ∧
      (cartRemove ns ct (FetchResult.thrown m)).response.body =
        RespBody.errWrap "Failed to remove item." (ErrDetails.exnMessage m)) ∧
    ((cartUpdate ns ct (FetchResult.thrown m)).response.status = 500 ∧
      (cartUpdate ns ct (FetchResult.thrown m)).response.body =
        RespBody.errWrap "Failed to update item quantity in cart." ErrDetails.noDetails) ∧
    ((apiInit ns ct (FetchResult.ok (UpstreamResponse.mk s stok non
        (BodyResult.parseError m)))).response.status = 500 ∧
      (apiInit ns ct (FetchResult.ok (UpstreamResponse.mk s stok non
        (BodyResult.parseError m)))).response.body =
        RespBody.errWrap "Failed to initialize session." (ErrDetails.exnMessage m)) ∧
    ((apiCart ns ct (FetchResult.ok (UpstreamResponse.mk s stok non
        (BodyResult.parseError m)))).response.status = 500 ∧
      (apiCart ns ct (FetchResult.ok (UpstreamResponse.mk s stok non
        (BodyResult.parseError m)))).response.body =
        RespBody.errWrap "Failed to fetch cart." (ErrDetails.exnMessage m)) ∧
    ((apiProducts ns (FetchResult.ok (UpstreamResponse.mk s stok non
        (BodyResult.parseError m)))).response.status = 500 ∧
      (apiProducts ns (FetchResult.ok (UpstreamResponse.mk s stok non
        (BodyResult.parseError m)))).response.body =
        RespBody.errWrap "Failed to fetch products." (ErrDetails.exnMessage m)) ∧
    ((cartAdd ns ct (FetchResult.ok (UpstreamResponse.mk s stok non
        (BodyResult.parseError m)))).response.status = 500 ∧
      (cartAdd ns ct (FetchResult.ok (UpstreamResponse.mk s stok non
        (BodyResult.parseError m)))).response.body =
        RespBody.errWrap "Failed to add item to cart." (ErrDetails.exnMessage m)) ∧
    ((cartUpdate ns ct (FetchResult.ok (UpstreamResponse.mk s stok non
        (BodyResult.parseError m)))).response.status = 500 ∧
      (cartUpdate ns ct (FetchResult.ok (UpstreamResponse.mk s stok non
        (BodyResult.parseError m)))).response.body =
        RespBody.errWrap "Failed to update item quantity in cart." ErrDetails.noDetails) ∧
    (¬ s = 204 → respOk s = false →
      (cartRemove ns ct (FetchResult.ok (UpstreamResponse.mk s stok non
        (BodyResult.parseError m)))).response.status = 500 ∧
      (cartRemove ns ct (FetchResult.ok (UpstreamResponse.mk s stok non
        (BodyResult.parseError m)))).response.body =
        RespBody.errWrap "Failed to remove item."
          (ErrDetails.exnMessage ("Store API remove failed with status " ++ toString s))) ∧
    (¬ s = 204 → respOk s = true →
      (cartRemove ns ct (FetchResult.ok (UpstreamResponse.mk s stok non
        (BodyResult.parseError m)))).response.status = s ∧
      (cartRemove ns ct (FetchResult.ok (UpstreamResponse.mk s stok non
        (BodyResult.parseError m)))).response.body =
        RespBody.relay (JsonBody.mk none none)) := by
  refine ⟨⟨rfl, rfl⟩, ⟨rfl, rfl⟩, ⟨rfl, rfl⟩, ⟨rfl, rfl⟩, ⟨rfl, rfl⟩, ⟨rfl, rfl⟩,
    ⟨rfl, rfl⟩, ⟨rfl, rfl⟩, ⟨rfl, rfl⟩, ⟨rfl, rfl⟩, ⟨rfl, rfl⟩,
    fun h204 hnotok => ?_, fun h204 hok => ?_⟩
  · constructor <;> simp [cartRemove, h204, hnotok]
  · constructor <;> simp [cartRemove, h204, hok]

/-- Claim C5 witness: with the concrete message `"bad json"` — update-item
omits it on a transport error and on a parse failure; init includes it on a
parse failure; remove answers 500 with the synthesized message on a parse
failure over upstream 500, and relays upstream 200 with an empty object on
a parse failure over a success status. -/
theorem thrown_error_responses_witness :
    ((cartUpdate none none (FetchResult.thrown "bad json")).response.status = 500 ∧
      (cartUpdate none none (FetchResult.thrown "bad json")).response.body =
        RespBody.errWrap "Failed to update item quantity in cart." ErrDetails.noDetails) ∧
    ((apiInit none none (FetchResult.ok (UpstreamResponse.mk 500 none none
        (BodyResult.parseError "bad json")))).response.status = 500 ∧
      (apiInit none none (FetchResult.ok (UpstreamResponse.mk 500 none none
        (BodyResult.parseError "bad json")))).response.body =
        RespBody.errWrap "Failed to initialize session."
          (ErrDetails.exnMessage "bad json")) ∧
    ((cartUpdate none none (FetchResult.ok (UpstreamResponse.mk 500 none none
        (BodyResult.parseError "bad json")))).response.status = 500 ∧
      (cartUpdate none none (FetchResult.ok (UpstreamResponse.mk 500 none none
        (BodyResult.parseError "bad json")))).response.body =
        RespBody.errWrap "Failed to update item quantity in cart." ErrDetails.noDetails) ∧
    ((cartRemove none none (FetchResult.ok (UpstreamResponse.mk 500 none none
        (BodyResult.parseError "bad json")))).response.status = 500 ∧
      (cartRemove none none (FetchResult.ok (UpstreamResponse.mk 500 none none
        (BodyResult.parseError "bad json")))).response.body =
        RespBody.errWrap "Failed to remove item."
          (ErrDetails.exnMessage ("Store API remove failed with status " ++ toString 500))) ∧
    ((cartRemove none none (FetchResult.ok (UpstreamResponse.mk 200 none none
        (BodyResult.parseError "bad json")))).response.status = 200 ∧
      (cartRemove none none (FetchResult.ok (UpstreamResponse.mk 200 none none
        (BodyResult.parseError "bad json")))).response.body =
        RespBody.relay (JsonBody.mk none none)) := by
  have h1 := thrown_error_responses none none none none "bad json" 500
  have h2 := thrown_error_responses none none none none "bad json" 200
  exact ⟨h1.2.2.2.2.2.1, h1.2.2.2.2.2.2.1, h1.2.2.2.2.2.2.2.2.2.2.1,
    h1.2.2.2.2.2.2.2.2.2.2.2.1 (by decide) (by decide),
    h2.2.2.2.2.2.2.2.2.2.2.2.2 (by decide) (by decide)⟩

/-- Claim C8: with no Cart-Token request header, `GET /api/init` and
`GET /api/cart` still issue the upstream call with no Cart-Token outbound
header; when the upstream succeeds with a parsed body and a session token
header, each responds 200, sets the token as the Cart-Token response
header, and puts it in the body's `cartToken` field. -/
theorem no_client_token_still_succeeds (ns : Option String) (resp : UpstreamResponse)
    (tok : String) (data : JsonBody)
    (hs : resp.sessionToken = some tok) (hb : resp.body = BodyResult.parsed data)
    (hok : respOk resp.status = true) :
    ((apiInit ns none (FetchResult.ok resp)).upstreamCalled = true ∧
      ((apiInit ns none (FetchResult.ok resp)).outHeaders).lookup "Cart-Token" = none ∧
      (apiInit ns none (FetchResult.ok resp)).response.status = 200 ∧
      (apiInit ns none (FetchResult.ok resp)).response.cartTokenHeader = some tok ∧
      (apiInit ns none (FetchResult.ok resp)).response.body =
        RespBody.cartAndToken (some tok)) ∧
    ((apiCart ns none (FetchResult.ok resp)).upstreamCalled = true ∧
      ((apiCart ns none (FetchResult.ok resp)).outHeaders).lookup "Cart-Token" = none ∧
      (apiCart ns none (FetchResult.ok resp)).response.status = 200 ∧
      (apiCart ns none (FetchResult.ok resp)).response.cartTokenHeader = some tok ∧
      (apiCart ns none (FetchResult.ok resp)).response.body =
        RespBody.cartAndToken (some tok)) := by
  refine ⟨⟨?_, ?_, ?_, ?_, ?_⟩, ⟨?_, ?_, ?_, ?_, ?_⟩⟩ <;>
    simp [apiInit, apiCart, hb, hok, hs, tokenOr, getHeaders, List.lookup]

/-- Claim C8 witness: a concrete tokenless request whose upstream answers
200 with session token `"t0"`. -/
theorem no_client_token_still_succeeds_witness :
    ((apiInit none none
        (FetchResult.ok (UpstreamResponse.mk 200 (some "t0") none
          (BodyResult.parsed (JsonBody.mk none none))))).upstreamCalled = true ∧
      ((apiInit none none
        (FetchResult.ok (UpstreamResponse.mk 200 (some "t0") none
          (BodyResult.parsed (JsonBody.mk none none))))).outHeaders).lookup "Cart-Token"
        = none ∧
      (apiInit none none
        (FetchResult.ok (UpstreamResponse.mk 200 (some "t0") none
          (BodyResult.parsed (JsonBody.mk none none))))).response.status = 200 ∧
      (apiInit none none
        (FetchResult.ok (UpstreamResponse.mk 200 (some "t0") none
          (BodyResult.parsed (JsonBody.mk none none))))).response.cartTokenHeader
        = some "t0" ∧
      (apiInit none none
        (FetchResult.ok (UpstreamResponse.mk 200 (some "t0") none
          (BodyResult.parsed (JsonBody.mk none none))))).response.body =
        RespBody.cartAndToken (some "t0")) ∧
    ((apiCart none none
        (FetchResult.ok (UpstreamResponse.mk 200 (some "t0") none
          (BodyResult.parsed (JsonBody.mk none none))))).upstreamCalled = true ∧
      ((apiCart none none
        (FetchResult.ok (UpstreamResponse.mk 200 (some "t0") none
          (BodyResult.parsed (JsonBody.mk none none))))).outHeaders).lookup "Cart-Token"
        = none ∧
      (apiCart none none
        (FetchResult.ok (UpstreamResponse.mk 200 (some "t0") none
          (BodyResult.parsed (JsonBody.mk none none))))).response.status = 200 ∧
      (apiCart none none
        (FetchResult.ok (UpstreamResponse.mk 200 (some "t0") none
          (BodyResult.parsed (JsonBody.mk none none))))).response.cartTokenHeader
        = some "t0" ∧
      (apiCart none none
        (FetchResult.ok (UpstreamResponse.mk 200 (some "t0") none
          (BodyResult.parsed (JsonBody.mk none none))))).response.body =
        RespBody.cartAndToken (some "t0")) :=
  no_client_token_still_succeeds none
    (UpstreamResponse.mk 200 (some "t0") none (BodyResult.parsed (JsonBody.mk none none)))
    "t0" (JsonBody.mk none none) rfl rfl (by decide)

/-- Claim C9: when the upstream answers 204 on `POST /api/cart/remove-item`,
the `src/server.js` handler responds 204 with an empty body, never attempts
to parse the upstream body, and mirrors the session token header into the
Cart-Token response header; the `part_000` variant's 204 branch behaves the
same way (it returns before the undefined-identifier code). -/
theorem remove_item_204_passthrough (ns ct : Option String) (resp : UpstreamResponse)
    (h204 : resp.status = 204) :
    (cartRemove ns ct (FetchResult.ok resp)).response.status = 204 ∧
    (cartRemove ns ct (FetchResult.ok resp)).response.body = RespBody.empty ∧
    (cartRemove ns ct (FetchResult.ok resp)).parseAttempted = false ∧
    (cartRemove ns ct (FetchResult.ok resp)).response.cartTokenHeader = resp.sessionToken ∧
    (cartRemoveP0 ns ct (FetchResult.ok resp)).outcome =
      RemoveOutcomeP0.responded (ProxyResponse.mk 204 resp.sessionToken RespBody.empty) ∧
    (cartRemoveP0 ns ct (FetchResult.ok resp)).parseAttempted = false := by
  refine ⟨?_, ?_, ?_, ?_, ?_, ?_⟩ <;> simp [cartRemove, cartRemoveP0, h204]

/-- Claim C9 witness: concrete upstream 204 carrying session token `"s9"`
(and an unparseable body, which is never touched). -/
theorem remove_item_204_passthrough_witness :
    (cartRemove none (some "c9")
      (FetchResult.ok (UpstreamResponse.mk 204 (some "s9") none
        (BodyResult.parseError "unexpected end of input")))).response.status = 204 ∧
    (cartRemove none (some "c9")
      (FetchResult.ok (UpstreamResponse.mk 204 (some "s9") none
        (BodyResult.parseError "unexpected end of input")))).response.body = RespBody.empty ∧
    (cartRemove none (some "c9")
      (FetchResult.ok (UpstreamResponse.mk 204 (some "s9") none
        (BodyResult.parseError "unexpected end of input")))).parseAttempted = false ∧
    (cartRemove none (some "c9")
      (FetchResult.ok (UpstreamResponse.mk 204 (some "s9") none
        (BodyResult.parseError "unexpected end of input")))).response.cartTokenHeader
      = (UpstreamResponse.mk 204 (some "s9") none
          (BodyResult.parseError "unexpected end of input")).sessionToken ∧
    (cartRemoveP0 none (some "c9")
      (FetchResult.ok (UpstreamResponse.mk 204 (some "s9") none
        (BodyResult.parseError "unexpected end of input")))).outcome =
      RemoveOutcomeP0.responded
        (ProxyResponse.mk 204
          (UpstreamResponse.mk 204 (some "s9") none
            (BodyResult.parseError "unexpected end of input")).sessionToken RespBody.empty) ∧
    (cartRemoveP0 none (some "c9")
      (FetchResult.ok (UpstreamResponse.mk 204 (some "s9") none
        (BodyResult.parseError "unexpected end of input")))).parseAttempted = false :=
  remove_item_204_passthrough none (some "c9")
    (UpstreamResponse.mk 204 (some "s9") none
      (BodyResult.parseError "unexpected end of input")) rfl

/-- Claim C10: in the `part_000` remove handler, every upstream response
with a non-204 status drives execution into a reference to an identifier
undefined on the server — the handler throws and no HTTP response is sent. -/
theorem removeP0_non204_never_responds (ns ct : Option String) (resp : UpstreamResponse)
    (h : resp.status ≠ 204) :
    (∀ r : ProxyResponse,
      (cartRemoveP0 ns ct (FetchResult.ok resp)).outcome ≠ RemoveOutcomeP0.responded r) ∧
    ∃ name : String,
      (cartRemoveP0 ns ct (FetchResult.ok resp)).outcome =
        RemoveOutcomeP0.threwUndefined name ∧
      name ∈ undefinedRemoveIdentifiers := by
  cases hb : resp.body with
  | parseError m =>
      by_cases hok : respOk resp.status = true
      · refine ⟨fun r => ?_, "fetchAndDisplayCart", ?_, ?_⟩
        · simp [cartRemoveP0, hb, h, hok]
        · simp [cartRemoveP0, hb, h, hok]
        · simp [undefinedRemoveIdentifiers]
      · refine ⟨fun r => ?_, "showCartError", ?_, ?_⟩
        · simp [cartRemoveP0, hb, h, hok]
        · simp [cartRemoveP0, hb, h, hok]
        · simp [undefinedRemoveIdentifiers]
  | parsed data =>
      cases hct : data.cartToken with
      | some t =>
          refine ⟨fun r => ?_, "wooCartToken", ?_, ?_⟩
          · simp [cartRemoveP0, hb, h, hct]
          · simp [cartRemoveP0, hb, h, hct]
          · simp [undefinedRemoveIdentifiers]
      | none =>
          refine ⟨fun r => ?_, "fetchAndDisplayCart", ?_, ?_⟩
          · simp [cartRemoveP0, hb, h, hct]
          · simp [cartRemoveP0, hb, h, hct]
          · simp [undefinedRemoveIdentifiers]

/-- Claim C10 witness: a concrete 200 response whose body carries a truthy
`cartToken`; the handler's execution reaches `wooCartToken` and sends no
response. -/
theorem removeP0_non204_never_responds_witness :
    (∀ r : ProxyResponse,
      (cartRemoveP0 none none
        (FetchResult.ok (UpstreamResponse.mk 200 none none
          (BodyResult.parsed (JsonBody.mk none (some "ct1")))))).outcome ≠
        RemoveOutcomeP0.responded r) ∧
    ∃ name : String,
      (cartRemoveP0 none none
        (FetchResult.ok (UpstreamResponse.mk 200 none none
          (BodyResult.parsed (JsonBody.mk none (some "ct1")))))).outcome =
        RemoveOutcomeP0.threwUndefined name ∧
      name ∈ undefinedRemoveIdentifiers :=
  removeP0_non204_never_responds none none
    (UpstreamResponse.mk 200 none none (BodyResult.parsed (JsonBody.mk none (some "ct1"))))
    (by decide)
